import Mathlib

/-! Verification development.
Verification of the natural-language specification of `src/api-service.js`
(the Palefò browser-side API client) against a shallow embedding of that
file's code in Lean.

Conventions of the embedding:
* JavaScript strings are Lean `String`s; a "falsy" string is `""`.
* Parsed JSON values are modelled by the inductive `JsValue`; a field absent
  from an object reads as `JsValue.jsUndefined`, mirroring JavaScript property
  access on plain objects.
* Thrown JavaScript errors are `JsError` values (a kind tag plus the
  `message` string); fallible code returns `Except JsError α`.
* The network is an oracle `FetchOracle : String → FetchOutcome` mapping a
  request URL to either a response (status, statusText, parsed JSON body,
  raw text body) or a transport-level rejection (CORS block, DNS failure).
* Observable side effects are recorded as an `Event` trace: toggling the
  process-wide loading indicator (`document.body` CSS class) and issuing a
  network request.
* The module-level mutable `usingFallbackUrl` flag is threaded explicitly:
  operations take the current flag value; `getContributions`, the only
  mutator, also returns the updated flag.
Note: line 13 of the source has a stray `.` after the production URL string
literal; the embedding uses the string value of that literal.
-/

/-- Character-list prefix test used to embed JavaScript `String.includes`. -/
def charsStartWith : List Char → List Char → Bool
  | [], _ => true
  | _ :: _, [] => false
  | p :: ps, c :: cs => p == c && charsStartWith ps cs

/-- Character-list infix test used to embed JavaScript `String.includes`. -/
def charsContain (pat : List Char) : List Char → Bool
  | [] => charsStartWith pat []
  | c :: cs => charsStartWith pat (c :: cs) || charsContain pat cs

/-- Embedding of JavaScript `s.includes(pat)` on strings. -/
def strContains (s pat : String) : Bool :=
  charsContain pat.toList s.toList

/-- Characters `encodeURIComponent` leaves unescaped:
alphanumerics and `- _ . ! ~ * ' ( )`. -/
def isUnescapedURIChar (c : Char) : Bool :=
  c.isAlphanum || c == '-' || c == '_' || c == '.' || c == '!' ||
    c == Char.ofNat 126 || c == Char.ofNat 42 || c == Char.ofNat 39 ||
    c == Char.ofNat 40 || c == Char.ofNat 41

/-- Upper-case hexadecimal digit of a value below 16. -/
def hexDigitChar (n : Nat) : Char :=
  if n < 10 then Char.ofNat (48 + n) else Char.ofNat (55 + n)

/-- Percent-encoding of one byte, `%HH` with upper-case hex. -/
def percentByte (b : Nat) : String :=
  String.mk [Char.ofNat 37, hexDigitChar (b / 16), hexDigitChar (b % 16)]

/-- UTF-8 encoding of one character, as byte values. -/
def utf8Bytes (c : Char) : List Nat :=
  let n := c.toNat
  if n < 128 then [n]
  else if n < 2048 then [192 + n / 64, 128 + n % 64]
  else if n < 65536 then [224 + n / 4096, 128 + (n / 64) % 64, 128 + n % 64]
  else [240 + n / 262144, 128 + (n / 4096) % 64, 128 + (n / 64) % 64, 128 + n % 64]

/-- Percent-encoding of one character: kept if unescaped, otherwise each of
its UTF-8 bytes is percent-encoded. -/
def encodeChar (c : Char) : String :=
  if isUnescapedURIChar c then String.singleton c
  else String.join ((utf8Bytes c).map percentByte)

/-- Embedding of the JavaScript built-in `encodeURIComponent`. -/
def encodeURIComponent (s : String) : String :=
  String.join (s.toList.map encodeChar)

/-- Parsed JSON values (plus `undefined`), the data flowing through the
client. JSON parsing never produces functions, so there is no closure
constructor: calling a method on one of these values is a `TypeError`. -/
inductive JsValue where
  | jsUndefined
  | jsNull
  | bool (b : Bool)
  | num (n : Int)
  | str (s : String)
  | arr (elems : List JsValue)
  | obj (fields : List (String × JsValue))

/-- JavaScript truthiness of an embedded value. Arrays and objects are
always truthy; `0`, `""`, `null` and `undefined` are falsy. -/
def JsValue.truthy : JsValue → Bool
  | .jsUndefined => false
  | .jsNull => false
  | .bool b => b
  | .num n => n != 0
  | .str s => s != ""
  | .arr _ => true
  | .obj _ => true

/-- Property read `v.k` on a parsed JSON value: a present object field, or
`undefined`. (The degenerate reads the client never performs — on `null`
or primitives — are modelled as `undefined` as well.) -/
def JsValue.getField : JsValue → String → JsValue
  | .obj fs, k => match fs.lookup k with
    | some v => v
    | none => .jsUndefined
  | _, _ => .jsUndefined

/-- Replace the value of key `k` in an association list (first occurrence),
appending when absent — JavaScript property assignment on an object. -/
def setFieldList : List (String × JsValue) → String → JsValue → List (String × JsValue)
  | [], k, v => [(k, v)]
  | (k0, v0) :: fs, k, v =>
      if k0 == k then (k, v) :: fs else (k0, v0) :: setFieldList fs k v

/-- Property assignment `v.k = w` on an object; other values are returned
unchanged. -/
def JsValue.setField : JsValue → String → JsValue → JsValue
  | .obj fs, k, v => .obj (setFieldList fs k v)
  | other, _, _ => other

/-- Strict equality `v === s` against a string, as in the contributor
lookup callback. -/
def strictEqStr (v : JsValue) (s : String) : Bool :=
  match v with
  | .str t => t == s
  | _ => false

/-- Classification of the `Error` values the client throws, following the
spec's taxonomy (`ValidationError`, `HttpError`, `NetworkError`) plus the
runtime `TypeError`. The source throws plain `Error`s; the kind records the
role of each `throw` site. -/
inductive ErrKind where
  | validation
  | http
  | network
  | typeErr
deriving DecidableEq

/-- A thrown JavaScript error: its kind and its `message` string (the
string the fallback policy inspects). -/
structure JsError where
  kind : ErrKind
  message : String
deriving DecidableEq

/-- An HTTP response as the `fetch` API presents it: status, statusText,
the JSON value `response.json()` would yield, and the raw text body. -/
structure Response where
  status : Nat
  statusText : String
  body : JsValue
  bodyText : String

/-- Source `Response.ok`: status in the 2xx range. -/
def Response.ok (r : Response) : Bool :=
  decide (200 ≤ r.status) && decide (r.status ≤ 299)

/-- Outcome of one `fetch`: a response, or a transport-level rejection
(CORS block, network failure) whose message is the rejection reason. -/
inductive FetchOutcome where
  | response (r : Response)
  | reject (msg : String)

/-- The network, as a deterministic oracle from request URL to outcome.
Every network scenario the claims mention is expressible by choosing an
oracle. -/
def FetchOracle : Type := String → FetchOutcome

/-- Observable side effects of the client: the loading indicator CSS class
(`showLoading`/`hideLoading`, source lines 38–44) and issued requests. -/
inductive Event where
  | setLoading
  | clearLoading
  | request (url : String)
deriving DecidableEq

/-- The request URLs occurring in a trace, in order. -/
def requestUrls : List Event → List String
  | [] => []
  | .request u :: es => u :: requestUrls es
  | _ :: es => requestUrls es

/-- Number of requests issued while the loading indicator is off, starting
from the given indicator state. -/
def unguardedRequests : Bool → List Event → Nat
  | _, [] => 0
  | _, .setLoading :: es => unguardedRequests true es
  | _, .clearLoading :: es => unguardedRequests false es
  | l, .request _ :: es => (if l then 0 else 1) + unguardedRequests l es

/-- Loading-indicator state after running a trace from the given state. -/
def loadingAfter : Bool → List Event → Bool
  | l, [] => l
  | _, .setLoading :: es => loadingAfter true es
  | _, .clearLoading :: es => loadingAfter false es
  | l, .request _ :: es => loadingAfter l es

/-- Source `API_BASE_URLS.local` (source line 11), also the fixed fallback
endpoint. -/
def API_BASE_URLS_local : String := "https://localhost:7152/api"

/-- Source `API_BASE_URLS.production` (source line 13). -/
def API_BASE_URLS_production : String :=
  "https://palefo-mock-api-92d4b6d1e5b9.herokuapp.com/api"

/-- Source `API_BASE_URL` (source line 29): `ENVIRONMENT` is hardwired to
`"production"` at line 26. -/
def API_BASE_URL : String := API_BASE_URLS_production

/-- Source `getApiUrl()` (source lines 47–49): the fallback base URL once
`usingFallbackUrl` is set, the configured base URL otherwise. -/
def getApiUrl (usingFallbackUrl : Bool) : String :=
  if usingFallbackUrl then API_BASE_URLS_local else API_BASE_URL

/-- Source `getProxiedUrl(url)` (source lines 52–58): an Azure blob URL is
rewritten to the local relay path; anything else is returned unchanged. -/
def getProxiedUrl (flag : Bool) (url : String) : String :=
  if url != "" && strContains url "blob.core.windows.net" then
    getApiUrl flag ++ ("/api/proxy-audio?url=" ++ encodeURIComponent url)
  else url

/-- Source `fetchWithCorsHandling(url, options)` (source lines 61–116): issue the
fetch; a non-2xx response throws `Error("API error: <status>")`; an ok
response yields the parsed JSON body; a transport rejection is logged (and
may render a toast) and rethrown. -/
def fetchWithCorsHandling (o : FetchOracle) (url : String) : Except JsError JsValue :=
  match o url with
  | .reject msg => .error ⟨.network, msg⟩
  | .response r =>
      if r.ok then .ok r.body
      else .error ⟨.http, "API error: " ++ toString r.status⟩

/-- Shape shared by every operation that wraps a single raw `fetch` in
`showLoading` / `try` / `finally hideLoading`: a transport rejection is
rethrown; a non-2xx response throws an error whose message is built by
`errMsg` from status and statusText; an ok response yields the parsed
body. -/
def rawFetchOp (o : FetchOracle) (url : String) (errMsg : Nat → String → String) :
    Except JsError JsValue × List Event :=
  match o url with
  | .reject m => (.error ⟨.network, m⟩, [.setLoading, .request url, .clearLoading])
  | .response r =>
      (if r.ok then .ok r.body else .error ⟨.http, errMsg r.status r.statusText⟩,
       [.setLoading, .request url, .clearLoading])

/-- Shape shared by the operations that delegate to
`fetchWithCorsHandling` inside `showLoading` / `try` / `finally
hideLoading`. -/
def corsFetchOp (o : FetchOracle) (url : String) :
    Except JsError JsValue × List Event :=
  (fetchWithCorsHandling o url, [.setLoading, .request url, .clearLoading])

/-- Query-path of `getRandomSentences` (source lines 143–148): the
`excludeIds` suffix is added only for a non-empty provided array. -/
def randomSentencesPath (count : Nat) (excludeIds : Option (List Nat)) : String :=
  "/sentences/random?count=" ++ toString count ++
    (match excludeIds with
     | some ids =>
         if ids.length > 0 then
           "&excludeIds=" ++ String.intercalate "," (ids.map toString)
         else ""
     | none => "")

/-- Source `ApiService.getRandomSentences` (source lines 140–158). -/
def getRandomSentences (flag : Bool) (o : FetchOracle) (count : Nat)
    (excludeIds : Option (List Nat)) : Except JsError JsValue × List Event :=
  corsFetchOp o (getApiUrl flag ++ randomSentencesPath count excludeIds)

/-- Path of `getSentencesByCategory` (source lines 169–173). -/
def sentencesByCategoryPath (category : String) (count : Nat) : String :=
  "/sentences/category/" ++ encodeURIComponent category ++ "?count=" ++ toString count

/-- Source `ApiService.getSentencesByCategory` (source lines 166–188). -/
def getSentencesByCategory (flag : Bool) (o : FetchOracle) (category : String)
    (count : Nat) : Except JsError JsValue × List Event :=
  rawFetchOp o (getApiUrl flag ++ sentencesByCategoryPath category count)
    (fun status _ => "Error fetching sentences by category: " ++ toString status)

/-- Path of `getSentencesByCategorySimple` (source lines 199–203). -/
def sentencesByCategorySimplePath (category : String) (count : Nat) : String :=
  "/sentences/category-simple/" ++ encodeURIComponent category ++ "?count=" ++ toString count

/-- Source `ApiService.getSentencesByCategorySimple` (source lines 196–218). -/
def getSentencesByCategorySimple (flag : Bool) (o : FetchOracle) (category : String)
    (count : Nat) : Except JsError JsValue × List Event :=
  rawFetchOp o (getApiUrl flag ++ sentencesByCategorySimplePath category count)
    (fun status _ => "Error fetching sentences by category: " ++ toString status)

/-- Path of `getSentencesByDifficulty` (source line 230). -/
def sentencesByDifficultyPath (level : Int) (count : Nat) : String :=
  "/sentences/difficulty/" ++ toString level ++ "?count=" ++ toString count

/-- Source `ApiService.getSentencesByDifficulty` (source lines 226–246). -/
def getSentencesByDifficulty (flag : Bool) (o : FetchOracle) (level : Int)
    (count : Nat) : Except JsError JsValue × List Event :=
  rawFetchOp o (getApiUrl flag ++ sentencesByDifficultyPath level count)
    (fun status _ => "Error fetching sentences by difficulty: " ++ toString status)

/-- Source `ApiService.getStatistics` (source lines 252–285). Whether the request
goes directly or through the external CORS relay, the same URL is
requested; both branches are embedded as one request event. -/
def getStatistics (flag : Bool) (o : FetchOracle) :
    Except JsError JsValue × List Event :=
  rawFetchOp o (getApiUrl flag ++ "/statistics")
    (fun status statusText =>
      "Error fetching statistics: " ++ toString status ++ " " ++ statusText)

/-- Path of `getTopContributors` (source line 300). -/
def topContributorsPath (limit : Nat) : String :=
  "/contributors/top?limit=" ++ toString limit

/-- Source `ApiService.getTopContributors` (source lines 292–322). -/
def getTopContributors (flag : Bool) (o : FetchOracle) (limit : Nat) :
    Except JsError JsValue × List Event :=
  rawFetchOp o (getApiUrl flag ++ topContributorsPath limit)
    (fun status statusText =>
      "API error: " ++ toString status ++ " " ++ statusText)

/-- Source `ApiService.getContributionById` (source lines 462–472). -/
def getContributionById (flag : Bool) (o : FetchOracle) (id : Int) :
    Except JsError JsValue × List Event :=
  corsFetchOp o (getApiUrl flag ++ ("/contributions/" ++ toString id))

/-- An audio `Blob`: its byte size and declared MIME type (`""` models an
absent type, which is falsy). -/
structure Blob where
  size : Nat
  type : String

/-- File-extension inference of `submitContribution` (source lines
349–357): default `"wav"`, overridden to `"mp3"` for a truthy type
containing `"mpeg"` or `"mp3"`, else to `"webm"` for one containing
`"webm"`. -/
def fileExtensionFor (btype : String) : String :=
  if btype != "" then
    if strContains btype "mpeg" || strContains btype "mp3" then "mp3"
    else if strContains btype "webm" then "webm"
    else "wav"
  else "wav"

/-- Source `ApiService.submitContribution` (source lines 333–410). After the
empty-audio validation it posts the multipart body through
`fetchWithCorsHandling` — which already returns the parsed JSON body — and
then (source lines 389–397) treats that parsed body as a `Response`
object: it reads `.ok` on it and calls `.text()` / `.json()` on it, which
are not functions of a parsed JSON value, so the post-fetch code throws a
`TypeError`. -/
def submitContribution (flag : Bool) (o : FetchOracle) (_text : String)
    (audioBlob : Option Blob) (_email _gender _region : String) :
    Except JsError JsValue × List Event :=
  match audioBlob with
  | none =>
      (.error ⟨.validation,
        "Invalid audio recording: The audio blob is empty or undefined."⟩,
       [.setLoading, .clearLoading])
  | some b =>
      if b.size = 0 then
        (.error ⟨.validation,
          "Invalid audio recording: The audio blob is empty or undefined."⟩,
         [.setLoading, .clearLoading])
      else
        let _ext := fileExtensionFor b.type
        let url := getApiUrl flag ++ "/contributions"
        match fetchWithCorsHandling o url with
        | .error e => (.error e, [.setLoading, .request url, .clearLoading])
        | .ok data =>
            if (data.getField "ok").truthy then
              (.error ⟨.typeErr, "response.json is not a function"⟩,
               [.setLoading, .request url, .clearLoading])
            else
              (.error ⟨.typeErr, "response.text is not a function"⟩,
               [.setLoading, .request url, .clearLoading])

/-- Query-path of `getContributions` (source lines 421–426): `page` and
`pageSize` always, `includeUnapproved=true` only when requested. -/
def contributionsPath (page pageSize : Nat) (includeUnapproved : Bool) : String :=
  "/contributions?page=" ++ toString page ++ "&pageSize=" ++ toString pageSize ++
    (if includeUnapproved then "&includeUnapproved=true" else "")

/-- Full URL of one `getContributions` request. -/
def contributionsUrl (flag : Bool) (page pageSize : Nat) (includeUnapproved : Bool) :
    String :=
  getApiUrl flag ++ contributionsPath page pageSize includeUnapproved

/-- The `map` callback of `getContributions` (source lines 432–437): a
truthy `audioUrl` is reassigned to `getProxiedUrl` of itself; a truthy
non-string `audioUrl` would make `url.includes` a `TypeError` inside
`getProxiedUrl`. -/
def processContribution (flag : Bool) (c : JsValue) : Except JsError JsValue :=
  match c.getField "audioUrl" with
  | .str u =>
      if u != "" then
        .ok (c.setField "audioUrl" (.str (getProxiedUrl flag u)))
      else .ok c
  | v =>
      if v.truthy then .error ⟨.typeErr, "url.includes is not a function"⟩
      else .ok c

/-- Source `items.map(processContribution)` with JavaScript exception semantics:
the first thrown error aborts the map. -/
def mapProcess (flag : Bool) : List JsValue → Except JsError (List JsValue)
  | [] => .ok []
  | c :: cs =>
      match processContribution flag c with
      | .error e => .error e
      | .ok c2 =>
          match mapProcess flag cs with
          | .error e => .error e
          | .ok cs2 => .ok (c2 :: cs2)

/-- Post-processing of a `getContributions` response body (source lines
431–438): when `data && data.items` is truthy, `data.items` is replaced by
the processed items; a truthy non-array `items` would make `.map` a
`TypeError`. -/
def processData (flag : Bool) (data : JsValue) : Except JsError JsValue :=
  if data.truthy && (data.getField "items").truthy then
    match data.getField "items" with
    | .arr items =>
        match mapProcess flag items with
        | .error e => .error e
        | .ok items2 => .ok (data.setField "items" (.arr items2))
    | _ => .error ⟨.typeErr, "data.items.map is not a function"⟩
  else .ok data

/-- One attempt of `getContributions`: the body of its `try` block (source
lines 420–440) — fetch through `fetchWithCorsHandling`, then post-process
the items. -/
def contributionsAttempt (flag : Bool) (o : FetchOracle) (page pageSize : Nat)
    (includeUnapproved : Bool) : Except JsError JsValue :=
  match fetchWithCorsHandling o (contributionsUrl flag page pageSize includeUnapproved) with
  | .ok data => processData flag data
  | .error e => .error e

/-- Source `ApiService.getContributions` (source lines 418–455). On a failure
whose message contains `"API error"` while `usingFallbackUrl` is still
false, the flag is set and the call recurses — note the recursive call at
line 448 passes only `page` and `pageSize`, so `includeUnapproved` reverts
to its default `false`. The recursion terminates because the flag is true
in the recursive call, which disables the retry guard. Returns (result,
updated flag, event trace). -/
def getContributions (flag : Bool) (o : FetchOracle) (page pageSize : Nat)
    (includeUnapproved : Bool) :
    Except JsError JsValue × Bool × List Event :=
  let url := contributionsUrl flag page pageSize includeUnapproved
  match contributionsAttempt flag o page pageSize includeUnapproved with
  | .ok d => (.ok d, flag, [.setLoading, .request url, .clearLoading])
  | .error e =>
      if h : !flag && strContains e.message "API error" then
        let inner := getContributions true o page pageSize false
        (inner.1, inner.2.1, [.setLoading, .request url] ++ inner.2.2 ++ [.clearLoading])
      else
        (.error e, flag, [.setLoading, .request url, .clearLoading])
termination_by (bif flag then 0 else 1)
decreasing_by
  simp only [Bool.and_eq_true, Bool.not_eq_true'] at h
  simp [h.1]

/-- Result record of `checkPrizeEligibility` (source lines 482–522). -/
structure EligibilityResult where
  eligible : Bool
  message : String
  contributionCount : Int
  laptopEligible : Bool
  tshirtEligible : Bool
deriving DecidableEq

/-- Source `contributors.find((c) => c.email === email)` (source line 494):
the first contributor whose `email` field strictly equals the given
string, or `undefined`. -/
def jsFind (l : List JsValue) (email : String) : JsValue :=
  match l.find? (fun c => strictEqStr (c.getField "email") email) with
  | some v => v
  | none => .jsUndefined

/-- Source `userContribution.contributionCount || 0` (source line 506) for the
numeric counts this API returns: the field's value when it is a number
(`0 || 0` is `0`), `0` when the field is missing or not a number. -/
def countOf (v : JsValue) : Int :=
  match v.getField "contributionCount" with
  | .num n => n
  | _ => 0

/-- The eligibility message (source lines 512–518). -/
def eligMessage (count : Int) : String :=
  if count ≥ 10000 then "Congratulations! You\x27ve qualified for a laptop!"
  else if count ≥ 1000 then "You\x27ve qualified for a t-shirt and surprise gift!"
  else "You need " ++ toString (1000 - count) ++
    " more valid contributions to qualify for a t-shirt"

/-- The eligibility record derived from a found contributor's count
(source lines 506–522): laptop at 10000, t-shirt at 1000, `eligible`
equal to `tshirtEligible`. -/
def deriveEligibility (count : Int) : EligibilityResult :=
  { eligible := decide (count ≥ 1000)
    message := eligMessage count
    contributionCount := count
    laptopEligible := decide (count ≥ 10000)
    tshirtEligible := decide (count ≥ 1000) }

/-- Source `ApiService.checkPrizeEligibility` (source lines 479–527). A falsy
email short-circuits with no network traffic and no loading toggle (this
operation has no `showLoading` of its own); otherwise it delegates to
`getTopContributors(50)` and searches the result. -/
def checkPrizeEligibility (flag : Bool) (o : FetchOracle) (email : String) :
    Except JsError EligibilityResult × List Event :=
  if email = "" then
    (.ok { eligible := false
           message := "Email required for prize eligibility"
           contributionCount := 0
           laptopEligible := false
           tshirtEligible := false }, [])
  else
    match getTopContributors flag o 50 with
    | (.error e, tr) => (.error e, tr)
    | (.ok body, tr) =>
        match body with
        | .arr contributors =>
            let userContribution := jsFind contributors email
            if userContribution.truthy then
              (.ok (deriveEligibility (countOf userContribution)), tr)
            else
              (.ok { eligible := false
                     message := "No contributions found for this email"
                     contributionCount := 0
                     laptopEligible := false
                     tshirtEligible := false }, tr)
        | _ => (.error ⟨.typeErr, "contributors.find is not a function"⟩, tr)

/-- Truthiness of an optional string argument (JavaScript `null`,
`undefined` or `""` are falsy). -/
def truthyOpt : Option String → Bool
  | none => false
  | some s => s != ""

/-- Query-path of `getContributionsForModeration` (source lines 659–662):
always `includeUnapproved=true`. -/
def moderationListPath (page pageSize : Nat) : String :=
  "/contributions?page=" ++ toString page ++ "&pageSize=" ++ toString pageSize ++
    "&includeUnapproved=true"

/-- The three client-side moderation predicates (source lines 667–682):
`approved` keeps truthy `isApproved`; `rejected` keeps falsy `isApproved`
with a truthy `rejectionReason`; any other filter string (the `pending`
default) keeps falsy `isApproved` without a truthy `rejectionReason`. -/
def moderationPredicate (filter : String) (c : JsValue) : Bool :=
  if filter = "approved" then (c.getField "isApproved").truthy
  else if filter = "rejected" then
    !(c.getField "isApproved").truthy && (c.getField "rejectionReason").truthy
  else
    !(c.getField "isApproved").truthy && !(c.getField "rejectionReason").truthy

/-- The unique bucket a contribution belongs to, by its
`isApproved`/`rejectionReason` truthiness. -/
def bucketOf (c : JsValue) : String :=
  if (c.getField "isApproved").truthy then "approved"
  else if (c.getField "rejectionReason").truthy then "rejected"
  else "pending"

/-- Result record of `getContributionsForModeration` (source lines
684–689). -/
structure ModerationPage where
  items : List JsValue
  page : Nat
  pageSize : Nat
  filter : String

/-- Source `ApiService.getContributionsForModeration` (source lines 651–696).
The parsed response is filtered client-side; a non-array response would
make `.filter` a `TypeError`. -/
def getContributionsForModeration (flag : Bool) (o : FetchOracle)
    (page pageSize : Nat) (filter : String) :
    Except JsError ModerationPage × List Event :=
  let url := getApiUrl flag ++ moderationListPath page pageSize
  match fetchWithCorsHandling o url with
  | .error e => (.error e, [.setLoading, .request url, .clearLoading])
  | .ok body =>
      match body with
      | .arr cs =>
          (.ok { items := cs.filter (moderationPredicate filter)
                 page := page, pageSize := pageSize, filter := filter },
           [.setLoading, .request url, .clearLoading])
      | _ =>
          (.error ⟨.typeErr, "contributions.filter is not a function"⟩,
           [.setLoading, .request url, .clearLoading])

/-- Path of the `moderateContribution` PATCH request (source line 715). -/
def approvalPath (id : Int) : String :=
  "/contributions/" ++ toString id ++ "/approval"

/-- Source `ApiService.moderateContribution` (source lines 705–745): rejecting
without a truthy rejection reason throws before any request; otherwise a
raw `fetch` PATCH, non-2xx throwing `Error("API error: <status>")`. -/
def moderateContribution (flag : Bool) (o : FetchOracle) (id : Int)
    (approved : Bool) (rejectionReason : Option String) :
    Except JsError JsValue × List Event :=
  if !approved && !truthyOpt rejectionReason then
    (.error ⟨.validation, "Rejection reason is required when rejecting a contribution"⟩,
     [.setLoading, .clearLoading])
  else
    let url := getApiUrl flag ++ approvalPath id
    match o url with
    | .reject m => (.error ⟨.network, m⟩, [.setLoading, .request url, .clearLoading])
    | .response r =>
        (if r.ok then .ok r.body
         else .error ⟨.http, "API error: " ++ toString r.status⟩,
         [.setLoading, .request url, .clearLoading])

/-- One probe's entry in the `testApiConnection` report: the HTTP status
and either the parsed payload or the string `"Failed"`. -/
structure ProbeReport where
  status : Nat
  data : JsValue

/-- The report `testApiConnection` returns on its success path (source
lines 616–634). -/
structure ApiTestReport where
  apiUrl : String
  statistics : ProbeReport
  contributions : ProbeReport
  sentences : ProbeReport
  gemini : ProbeReport

/-- Result of `testApiConnection`: the structured report, or — when the
outer `catch` (source lines 635–641) is reached — an error record holding
only the message. -/
inductive TestResult where
  | report (r : ApiTestReport)
  | errorReport (message : String)

/-- Probe payload for a settled response: the parsed body when 2xx, the
string `"Failed"` otherwise. -/
def probeData (r : Response) : JsValue :=
  if r.ok then r.body else .str "Failed"

/-- The Gemini probe (source lines 602–614), the only probe with its own
`try`/`catch`: a transport rejection becomes status `500` and an
`"Error: ..."` payload. -/
def geminiProbe (out : FetchOutcome) : ProbeReport :=
  match out with
  | .reject m => ⟨500, .str ("Error: " ++ m)⟩
  | .response r => ⟨r.status, probeData r⟩

/-- Source `ApiService.testApiConnection` (source lines 566–642). The statistics,
contributions and sentences probes are raw `fetch`es with no individual
`catch`: a transport rejection of any of them falls through to the outer
`catch` and aborts the remaining probes. No loading toggle occurs in this
operation. -/
def testApiConnection (flag : Bool) (o : FetchOracle) :
    TestResult × List Event :=
  let base := getApiUrl flag
  let statsUrl := base ++ "/statistics"
  match o statsUrl with
  | .reject m => (.errorReport m, [.request statsUrl])
  | .response rs =>
      let contribUrl := base ++ "/contributions?page=1&pageSize=5"
      match o contribUrl with
      | .reject m => (.errorReport m, [.request statsUrl, .request contribUrl])
      | .response rc =>
          let sentUrl := base ++ "/sentences/random?count=3"
          match o sentUrl with
          | .reject m =>
              (.errorReport m,
               [.request statsUrl, .request contribUrl, .request sentUrl])
          | .response rn =>
              let gemUrl := base ++ "/ai/gemini-phrase?difficultyLevel=2"
              (.report
                { apiUrl := base
                  statistics := ⟨rs.status, probeData rs⟩
                  contributions := ⟨rc.status, probeData rc⟩
                  sentences := ⟨rn.status, probeData rn⟩
                  gemini := geminiProbe (o gemUrl) },
               [.request statsUrl, .request contribUrl, .request sentUrl,
                .request gemUrl])

/-- Optional fields of the AI phrase operations (source lines 756–776):
`category` is added only when truthy, the numeric fields whenever they are
not `undefined`. -/
structure PhraseOptions where
  category : Option String
  difficultyLevel : Option Int
  minWords : Option Int
  maxWords : Option Int

/-- The query string the AI phrase operations build (source lines
760–776), parameters in source order. -/
def phraseQuery (opts : PhraseOptions) : String :=
  String.intercalate "&"
    ((match opts.category with
      | some c => if c != "" then ["category=" ++ encodeURIComponent c] else []
      | none => []) ++
     (match opts.difficultyLevel with
      | some d => ["difficultyLevel=" ++ toString d]
      | none => []) ++
     (match opts.minWords with
      | some m => ["minWords=" ++ toString m]
      | none => []) ++
     (match opts.maxWords with
      | some m => ["maxWords=" ++ toString m]
      | none => []))

/-- Path of `getAIGeneratedPhrase` (source lines 779–782). -/
def aiPhrasePath (opts : PhraseOptions) : String :=
  "/ai/random-phrase" ++
    (if phraseQuery opts != "" then "?" ++ phraseQuery opts else "")

/-- Source `ApiService.getAIGeneratedPhrase` (source lines 756–803). -/
def getAIGeneratedPhrase (flag : Bool) (o : FetchOracle) (opts : PhraseOptions) :
    Except JsError JsValue × List Event :=
  rawFetchOp o (getApiUrl flag ++ aiPhrasePath opts)
    (fun status _ => "Error fetching AI-generated phrase: " ++ toString status)

/-- Path of `getGeminiPhrase` (source lines 837–840). -/
def geminiPhrasePath (opts : PhraseOptions) : String :=
  "/ai/gemini-phrase" ++
    (if phraseQuery opts != "" then "?" ++ phraseQuery opts else "")

/-- Source `ApiService.getGeminiPhrase` (source lines 814–861). -/
def getGeminiPhrase (flag : Bool) (o : FetchOracle) (opts : PhraseOptions) :
    Except JsError JsValue × List Event :=
  rawFetchOp o (getApiUrl flag ++ geminiPhrasePath opts)
    (fun status _ => "Error fetching Gemini-generated phrase: " ++ toString status)

/-! Helper lemmas about the operations -/

theorem rawFetchOp_trace (o : FetchOracle) (url : String)
    (em : Nat → String → String) :
    (rawFetchOp o url em).2 = [.setLoading, .request url, .clearLoading] := by
  unfold rawFetchOp
  cases o url <;> rfl

theorem corsFetchOp_trace (o : FetchOracle) (url : String) :
    (corsFetchOp o url).2 = [.setLoading, .request url, .clearLoading] := rfl

/-- With the fallback flag already set, `getContributions` is a single
attempt: the retry guard is disabled, the flag stays true. -/
theorem getContributions_true (o : FetchOracle) (page pageSize : Nat) (incl : Bool) :
    getContributions true o page pageSize incl =
      (contributionsAttempt true o page pageSize incl, true,
       [.setLoading, .request (contributionsUrl true page pageSize incl),
        .clearLoading]) := by
  unfold getContributions
  cases h : contributionsAttempt true o page pageSize incl <;> simp [h]

/-- A successful attempt returns its data, leaves the flag unchanged, and
issues one request. -/
theorem getContributions_ok (flag : Bool) (o : FetchOracle) (page pageSize : Nat)
    (incl : Bool) (d : JsValue)
    (h : contributionsAttempt flag o page pageSize incl = .ok d) :
    getContributions flag o page pageSize incl =
      (.ok d, flag,
       [.setLoading, .request (contributionsUrl flag page pageSize incl),
        .clearLoading]) := by
  unfold getContributions
  simp [h]

/-- A first failure matching the fallback condition: the flag flips and a
single retry runs against the fallback URL with `includeUnapproved`
reverted to `false`. -/
theorem getContributions_retry (o : FetchOracle) (page pageSize : Nat) (incl : Bool)
    (e : JsError)
    (h1 : contributionsAttempt false o page pageSize incl = .error e)
    (h2 : strContains e.message "API error" = true) :
    getContributions false o page pageSize incl =
      (contributionsAttempt true o page pageSize false, true,
       [.setLoading, .request (contributionsUrl false page pageSize incl),
        .setLoading, .request (contributionsUrl true page pageSize false),
        .clearLoading, .clearLoading]) := by
  unfold getContributions
  simp [h1, h2, getContributions_true]

/-- A first failure not matching the fallback condition propagates with no
retry and no flag change. -/
theorem getContributions_propagate (o : FetchOracle) (page pageSize : Nat)
    (incl : Bool) (e : JsError)
    (h1 : contributionsAttempt false o page pageSize incl = .error e)
    (h2 : strContains e.message "API error" = false) :
    getContributions false o page pageSize incl =
      (.error e, false,
       [.setLoading, .request (contributionsUrl false page pageSize incl),
        .clearLoading]) := by
  unfold getContributions
  simp [h1, h2]

/-- Concrete network for the fallback scenario: every request to the
production base URL fails with HTTP 500; every request to the fallback
(localhost) base URL succeeds with an empty page. -/
def c1Oracle : FetchOracle := fun url =>
  if strContains url "localhost" then
    .response ⟨200, "OK", .obj [("items", .arr [])], ""⟩
  else
    .response ⟨500, "Internal Server Error", .jsNull, ""⟩

theorem getTopContributors_trace (flag : Bool) (o : FetchOracle) (limit : Nat) :
    (getTopContributors flag o limit).2 =
      [.setLoading, .request (getApiUrl flag ++ topContributorsPath limit),
       .clearLoading] :=
  rawFetchOp_trace o _ _

/-- Source `checkPrizeEligibility` either performs no side effect at all (falsy
email) or exactly the side effects of `getTopContributors(50)`. -/
theorem checkPrize_trace (flag : Bool) (o : FetchOracle) (email : String) :
    (checkPrizeEligibility flag o email).2 = [] ∨
    (checkPrizeEligibility flag o email).2 = (getTopContributors flag o 50).2 := by
  unfold checkPrizeEligibility
  by_cases he : email = ""
  · left
    simp [he]
  · right
    rw [if_neg he]
    rcases h : getTopContributors flag o 50 with ⟨res, tr⟩
    cases res with
    | error e => simp
    | ok body =>
        cases body <;> simp
        split <;> rfl

/-- Both the validation-failure path and the network path of
`submitContribution` produce one of two trace shapes. -/
theorem submitContribution_trace (flag : Bool) (o : FetchOracle) (t : String)
    (b : Option Blob) (em g r : String) :
    (submitContribution flag o t b em g r).2 = [.setLoading, .clearLoading] ∨
    (submitContribution flag o t b em g r).2 =
      [.setLoading, .request (getApiUrl flag ++ "/contributions"), .clearLoading] := by
  unfold submitContribution
  rcases b with _ | b
  · left; rfl
  · by_cases hs : b.size = 0
    · left; simp [hs]
    · right
      cases h : fetchWithCorsHandling o (getApiUrl flag ++ "/contributions") with
      | error e => simp [hs, h]
      | ok data =>
          simp only [hs, h, if_false, if_neg, reduceIte]
          split <;> rfl

theorem moderateContribution_trace (flag : Bool) (o : FetchOracle) (id : Int)
    (ap : Bool) (rr : Option String) :
    (moderateContribution flag o id ap rr).2 = [.setLoading, .clearLoading] ∨
    (moderateContribution flag o id ap rr).2 =
      [.setLoading, .request (getApiUrl flag ++ approvalPath id), .clearLoading] := by
  unfold moderateContribution
  by_cases hv : (!ap && !truthyOpt rr) = true
  · left; simp [hv]
  · right
    rw [if_neg hv]
    cases h : o (getApiUrl flag ++ approvalPath id) <;> simp [h]

theorem moderationList_trace (flag : Bool) (o : FetchOracle) (page ps : Nat)
    (f : String) :
    (getContributionsForModeration flag o page ps f).2 =
      [.setLoading, .request (getApiUrl flag ++ moderationListPath page ps),
       .clearLoading] := by
  unfold getContributionsForModeration
  cases h : fetchWithCorsHandling o (getApiUrl flag ++ moderationListPath page ps) with
  | error e => simp [h]
  | ok body => cases body <;> simp [h]

/-- Every request `testApiConnection` issues goes to the current base URL
plus some path. -/
theorem testApi_requests (flag : Bool) (o : FetchOracle) :
    ∀ u ∈ requestUrls (testApiConnection flag o).2, ∃ p, u = getApiUrl flag ++ p := by
  intro u hu
  unfold testApiConnection at hu
  cases h1 : o (getApiUrl flag ++ "/statistics") with
  | reject m =>
      simp [h1, requestUrls] at hu
      exact ⟨"/statistics", hu⟩
  | response rs =>
      cases h2 : o (getApiUrl flag ++ "/contributions?page=1&pageSize=5") with
      | reject m =>
          simp [h1, h2, requestUrls] at hu
          rcases hu with hu | hu
          · exact ⟨"/statistics", hu⟩
          · exact ⟨"/contributions?page=1&pageSize=5", hu⟩
      | response rc =>
          cases h3 : o (getApiUrl flag ++ "/sentences/random?count=3") with
          | reject m =>
              simp [h1, h2, h3, requestUrls] at hu
              rcases hu with hu | hu | hu
              · exact ⟨"/statistics", hu⟩
              · exact ⟨"/contributions?page=1&pageSize=5", hu⟩
              · exact ⟨"/sentences/random?count=3", hu⟩
          | response rn =>
              simp [h1, h2, h3, requestUrls] at hu
              rcases hu with hu | hu | hu | hu
              · exact ⟨"/statistics", hu⟩
              · exact ⟨"/contributions?page=1&pageSize=5", hu⟩
              · exact ⟨"/sentences/random?count=3", hu⟩
              · exact ⟨"/ai/gemini-phrase?difficultyLevel=2", hu⟩

/-! Claim C1 -/

/-- Claim C1 (corrected). If a `getContributions` call fails with an error
whose message contains `"API error"` while `usingFallbackUrl` is false,
the flag is set to true and exactly one retry runs against the fallback
base URL with the same `page` and `pageSize` — but with
`includeUnapproved` reverted to its default `false`, because the recursive
call at source line 448 passes only two arguments. A failure while the
flag is already true propagates to the caller with no further retry. -/
theorem C1_fallback_retry_amended (o : FetchOracle) (page pageSize : Nat)
    (incl : Bool) (e : JsError)
    (h1 : contributionsAttempt false o page pageSize incl = .error e)
    (h2 : strContains e.message "API error" = true) :
    getContributions false o page pageSize incl =
      (contributionsAttempt true o page pageSize false, true,
       [.setLoading, .request (contributionsUrl false page pageSize incl),
        .setLoading, .request (contributionsUrl true page pageSize false),
        .clearLoading, .clearLoading]) ∧
    (∀ e2 : JsError,
      contributionsAttempt true o page pageSize incl = .error e2 →
      getContributions true o page pageSize incl =
        (.error e2, true,
         [.setLoading, .request (contributionsUrl true page pageSize incl),
          .clearLoading])) := by
  refine ⟨getContributions_retry o page pageSize incl e h1 h2, ?_⟩
  intro e2 he2
  rw [getContributions_true, he2]

/-- Witness for C1: at the concrete fallback scenario, the first call with
`includeUnapproved = true` retries once against the fallback URL and the
retry succeeds with the empty page. -/
theorem C1_fallback_retry_amended_witness :
    getContributions false c1Oracle 1 20 true =
      (.ok (.obj [("items", .arr [])]), true,
       [.setLoading, .request (contributionsUrl false 1 20 true),
        .setLoading, .request (contributionsUrl true 1 20 false),
        .clearLoading, .clearLoading]) :=
  ((C1_fallback_retry_amended c1Oracle 1 20 true ⟨.http, "API error: 500"⟩
      rfl rfl).1).trans (by rfl)

/-- Claim C1 counterexample. The claim says the retry repeats the same call
(same `includeUnapproved`); at the concrete scenario with
`includeUnapproved = true`, the second request URL is the fallback URL
*without* `includeUnapproved` — a different call. -/
theorem C1_counterexample :
    requestUrls (getContributions false c1Oracle 1 20 true).2.2 =
      [contributionsUrl false 1 20 true, contributionsUrl true 1 20 false] ∧
    contributionsUrl true 1 20 false ≠ contributionsUrl true 1 20 true := by
  constructor
  · rw [getContributions_retry c1Oracle 1 20 true ⟨.http, "API error: 500"⟩ rfl rfl]
    rfl
  · decide

/-! Claim C2 -/

/-- A URL built from the fixed local fallback base URL. -/
def fromFallbackBase (u : String) : Prop :=
  ∃ rest, u = API_BASE_URLS_local ++ rest

/-- Claim C2 (confirmed). The `usingFallbackUrl` flag is one-directional:
`getContributions` — the only operation that writes the flag (source line
447) — returns the flag still true whenever it was true, and every other
operation does not write it at all (their embeddings do not even return a
flag). Moreover, with the flag true, every request URL each operation
issues — `testApiConnection` included — is built from the fixed local
fallback base URL, not from the configured base URL. -/
theorem C2_fallback_one_directional :
    (∀ (o : FetchOracle) (page pageSize : Nat) (incl : Bool),
       (getContributions true o page pageSize incl).2.1 = true) ∧
    (∀ (o : FetchOracle) (page pageSize : Nat) (incl : Bool),
       ∀ u ∈ requestUrls (getContributions true o page pageSize incl).2.2,
       fromFallbackBase u) ∧
    (∀ (o : FetchOracle) (count : Nat) (ids : Option (List Nat)),
       ∀ u ∈ requestUrls (getRandomSentences true o count ids).2, fromFallbackBase u) ∧
    (∀ (o : FetchOracle) (cat : String) (count : Nat),
       ∀ u ∈ requestUrls (getSentencesByCategory true o cat count).2, fromFallbackBase u) ∧
    (∀ (o : FetchOracle) (cat : String) (count : Nat),
       ∀ u ∈ requestUrls (getSentencesByCategorySimple true o cat count).2, fromFallbackBase u) ∧
    (∀ (o : FetchOracle) (lvl : Int) (count : Nat),
       ∀ u ∈ requestUrls (getSentencesByDifficulty true o lvl count).2, fromFallbackBase u) ∧
    (∀ o : FetchOracle,
       ∀ u ∈ requestUrls (getStatistics true o).2, fromFallbackBase u) ∧
    (∀ (o : FetchOracle) (limit : Nat),
       ∀ u ∈ requestUrls (getTopContributors true o limit).2, fromFallbackBase u) ∧
    (∀ (o : FetchOracle) (t : String) (b : Option Blob) (em g r : String),
       ∀ u ∈ requestUrls (submitContribution true o t b em g r).2, fromFallbackBase u) ∧
    (∀ (o : FetchOracle) (id : Int),
       ∀ u ∈ requestUrls (getContributionById true o id).2, fromFallbackBase u) ∧
    (∀ (o : FetchOracle) (email : String),
       ∀ u ∈ requestUrls (checkPrizeEligibility true o email).2, fromFallbackBase u) ∧
    (∀ o : FetchOracle,
       ∀ u ∈ requestUrls (testApiConnection true o).2, fromFallbackBase u) ∧
    (∀ (o : FetchOracle) (page ps : Nat) (f : String),
       ∀ u ∈ requestUrls (getContributionsForModeration true o page ps f).2,
       fromFallbackBase u) ∧
    (∀ (o : FetchOracle) (id : Int) (ap : Bool) (rr : Option String),
       ∀ u ∈ requestUrls (moderateContribution true o id ap rr).2, fromFallbackBase u) ∧
    (∀ (o : FetchOracle) (opts : PhraseOptions),
       ∀ u ∈ requestUrls (getAIGeneratedPhrase true o opts).2, fromFallbackBase u) ∧
    (∀ (o : FetchOracle) (opts : PhraseOptions),
       ∀ u ∈ requestUrls (getGeminiPhrase true o opts).2, fromFallbackBase u) := by
  refine ⟨?_, ?_, ?_, ?_, ?_, ?_, ?_, ?_, ?_, ?_, ?_, ?_, ?_, ?_, ?_, ?_⟩
  · intro o page pageSize incl
    rw [getContributions_true]
  · intro o page pageSize incl u hu
    rw [getContributions_true] at hu
    simp [requestUrls] at hu
    exact ⟨contributionsPath page pageSize incl, hu⟩
  · intro o count ids u hu
    rw [show (getRandomSentences true o count ids).2 = _ from corsFetchOp_trace o _] at hu
    simp [requestUrls] at hu
    exact ⟨randomSentencesPath count ids, hu⟩
  · intro o cat count u hu
    rw [show (getSentencesByCategory true o cat count).2 = _ from rawFetchOp_trace o _ _] at hu
    simp [requestUrls] at hu
    exact ⟨sentencesByCategoryPath cat count, hu⟩
  · intro o cat count u hu
    rw [show (getSentencesByCategorySimple true o cat count).2 = _ from rawFetchOp_trace o _ _] at hu
    simp [requestUrls] at hu
    exact ⟨sentencesByCategorySimplePath cat count, hu⟩
  · intro o lvl count u hu
    rw [show (getSentencesByDifficulty true o lvl count).2 = _ from rawFetchOp_trace o _ _] at hu
    simp [requestUrls] at hu
    exact ⟨sentencesByDifficultyPath lvl count, hu⟩
  · intro o u hu
    rw [show (getStatistics true o).2 = _ from rawFetchOp_trace o _ _] at hu
    simp [requestUrls] at hu
    exact ⟨"/statistics", hu⟩
  · intro o limit u hu
    rw [getTopContributors_trace] at hu
    simp [requestUrls] at hu
    exact ⟨topContributorsPath limit, hu⟩
  · intro o t b em g r u hu
    rcases submitContribution_trace true o t b em g r with h | h <;> rw [h] at hu
    · simp [requestUrls] at hu
    · simp [requestUrls] at hu
      exact ⟨"/contributions", hu⟩
  · intro o id u hu
    rw [show (getContributionById true o id).2 = _ from corsFetchOp_trace o _] at hu
    simp [requestUrls] at hu
    exact ⟨"/contributions/" ++ toString id, hu⟩
  · intro o email u hu
    rcases checkPrize_trace true o email with h | h <;> rw [h] at hu
    · simp [requestUrls] at hu
    · rw [getTopContributors_trace] at hu
      simp [requestUrls] at hu
      exact ⟨topContributorsPath 50, hu⟩
  · intro o u hu
    rcases testApi_requests true o u hu with ⟨p, hp⟩
    exact ⟨p, hp⟩
  · intro o page ps f u hu
    rw [moderationList_trace] at hu
    simp [requestUrls] at hu
    exact ⟨moderationListPath page ps, hu⟩
  · intro o id ap rr u hu
    rcases moderateContribution_trace true o id ap rr with h | h <;> rw [h] at hu
    · simp [requestUrls] at hu
    · simp [requestUrls] at hu
      exact ⟨approvalPath id, hu⟩
  · intro o opts u hu
    rw [show (getAIGeneratedPhrase true o opts).2 = _ from rawFetchOp_trace o _ _] at hu
    simp [requestUrls] at hu
    exact ⟨aiPhrasePath opts, hu⟩
  · intro o opts u hu
    rw [show (getGeminiPhrase true o opts).2 = _ from rawFetchOp_trace o _ _] at hu
    simp [requestUrls] at hu
    exact ⟨geminiPhrasePath opts, hu⟩

/-- Witness for C2: the one concrete request of a `getTopContributors`
call made with the flag set goes to the fallback base URL. -/
theorem C2_fallback_one_directional_witness :
    fromFallbackBase (getApiUrl true ++ topContributorsPath 10) :=
  C2_fallback_one_directional.2.2.2.2.2.2.2.1 c1Oracle 10
    (getApiUrl true ++ topContributorsPath 10)
    (by rw [getTopContributors_trace]; simp [requestUrls])

/-! Claim C10 -/

/-- Scoped acquisition/release of the loading indicator over a trace: no
request happens while the indicator is off, and the indicator is off again
when the trace ends. -/
def scopedLoading (tr : List Event) : Prop :=
  unguardedRequests false tr = 0 ∧ loadingAfter false tr = false

/-- An event that is a network request (not a loading toggle). -/
def isRequestEvent : Event → Bool
  | .request _ => true
  | _ => false

theorem getContributions_scoped (flag : Bool) (o : FetchOracle)
    (page pageSize : Nat) (incl : Bool) :
    scopedLoading (getContributions flag o page pageSize incl).2.2 := by
  cases flag with
  | true =>
      rw [getContributions_true]
      exact ⟨rfl, rfl⟩
  | false =>
      cases h : contributionsAttempt false o page pageSize incl with
      | ok d =>
          rw [getContributions_ok false o page pageSize incl d h]
          exact ⟨rfl, rfl⟩
      | error e =>
          cases hm : strContains e.message "API error" with
          | true =>
              rw [getContributions_retry o page pageSize incl e h hm]
              exact ⟨rfl, rfl⟩
          | false =>
              rw [getContributions_propagate o page pageSize incl e h hm]
              exact ⟨rfl, rfl⟩

/-- Source `testApiConnection` emits only request events: it never touches the
loading indicator. -/
theorem testApi_all_requests (flag : Bool) (o : FetchOracle) :
    ((testApiConnection flag o).2.all isRequestEvent) = true := by
  unfold testApiConnection
  cases h1 : o (getApiUrl flag ++ "/statistics") with
  | reject m => simp [h1, isRequestEvent]
  | response rs =>
      cases h2 : o (getApiUrl flag ++ "/contributions?page=1&pageSize=5") with
      | reject m => simp [h1, h2, isRequestEvent]
      | response rc =>
          cases h3 : o (getApiUrl flag ++ "/sentences/random?count=3") with
          | reject m => simp [h1, h2, h3, isRequestEvent]
          | response rn => simp [h1, h2, h3, isRequestEvent]

/-- Claim C10 (corrected). Every modelled operation that issues network
requests — except `testApiConnection` — sets the loading flag before its
first request and clears it when it completes, on success and failure
paths alike, so none of them ever has a request in flight with the flag
unset. `testApiConnection`, however, never touches the loading flag at
all: its trace consists of request events only, issued with the flag
unset. -/
theorem C10_loading_scoped_amended :
    (∀ (flag : Bool) (o : FetchOracle) (page pageSize : Nat) (incl : Bool),
       scopedLoading (getContributions flag o page pageSize incl).2.2) ∧
    (∀ (flag : Bool) (o : FetchOracle) (count : Nat) (ids : Option (List Nat)),
       scopedLoading (getRandomSentences flag o count ids).2) ∧
    (∀ (flag : Bool) (o : FetchOracle) (cat : String) (count : Nat),
       scopedLoading (getSentencesByCategory flag o cat count).2) ∧
    (∀ (flag : Bool) (o : FetchOracle) (cat : String) (count : Nat),
       scopedLoading (getSentencesByCategorySimple flag o cat count).2) ∧
    (∀ (flag : Bool) (o : FetchOracle) (lvl : Int) (count : Nat),
       scopedLoading (getSentencesByDifficulty flag o lvl count).2) ∧
    (∀ (flag : Bool) (o : FetchOracle), scopedLoading (getStatistics flag o).2) ∧
    (∀ (flag : Bool) (o : FetchOracle) (limit : Nat),
       scopedLoading (getTopContributors flag o limit).2) ∧
    (∀ (flag : Bool) (o : FetchOracle) (t : String) (b : Option Blob) (em g r : String),
       scopedLoading (submitContribution flag o t b em g r).2) ∧
    (∀ (flag : Bool) (o : FetchOracle) (id : Int),
       scopedLoading (getContributionById flag o id).2) ∧
    (∀ (flag : Bool) (o : FetchOracle) (email : String),
       scopedLoading (checkPrizeEligibility flag o email).2) ∧
    (∀ (flag : Bool) (o : FetchOracle) (page ps : Nat) (f : String),
       scopedLoading (getContributionsForModeration flag o page ps f).2) ∧
    (∀ (flag : Bool) (o : FetchOracle) (id : Int) (ap : Bool) (rr : Option String),
       scopedLoading (moderateContribution flag o id ap rr).2) ∧
    (∀ (flag : Bool) (o : FetchOracle) (opts : PhraseOptions),
       scopedLoading (getAIGeneratedPhrase flag o opts).2) ∧
    (∀ (flag : Bool) (o : FetchOracle) (opts : PhraseOptions),
       scopedLoading (getGeminiPhrase flag o opts).2) ∧
    (∀ (flag : Bool) (o : FetchOracle),
       ((testApiConnection flag o).2.all isRequestEvent) = true) := by
  refine ⟨getContributions_scoped, ?_, ?_, ?_, ?_, ?_, ?_, ?_, ?_, ?_, ?_, ?_, ?_, ?_,
    testApi_all_requests⟩
  · intro flag o count ids
    rw [show (getRandomSentences flag o count ids).2 = _ from corsFetchOp_trace o _]
    exact ⟨rfl, rfl⟩
  · intro flag o cat count
    rw [show (getSentencesByCategory flag o cat count).2 = _ from rawFetchOp_trace o _ _]
    exact ⟨rfl, rfl⟩
  · intro flag o cat count
    rw [show (getSentencesByCategorySimple flag o cat count).2 = _ from rawFetchOp_trace o _ _]
    exact ⟨rfl, rfl⟩
  · intro flag o lvl count
    rw [show (getSentencesByDifficulty flag o lvl count).2 = _ from rawFetchOp_trace o _ _]
    exact ⟨rfl, rfl⟩
  · intro flag o
    rw [show (getStatistics flag o).2 = _ from rawFetchOp_trace o _ _]
    exact ⟨rfl, rfl⟩
  · intro flag o limit
    rw [getTopContributors_trace]
    exact ⟨rfl, rfl⟩
  · intro flag o t b em g r
    rcases submitContribution_trace flag o t b em g r with h | h <;> rw [h] <;>
      exact ⟨rfl, rfl⟩
  · intro flag o id
    rw [show (getContributionById flag o id).2 = _ from corsFetchOp_trace o _]
    exact ⟨rfl, rfl⟩
  · intro flag o email
    rcases checkPrize_trace flag o email with h | h <;> rw [h]
    · exact ⟨rfl, rfl⟩
    · rw [getTopContributors_trace]
      exact ⟨rfl, rfl⟩
  · intro flag o page ps f
    rw [moderationList_trace]
    exact ⟨rfl, rfl⟩
  · intro flag o id ap rr
    rcases moderateContribution_trace flag o id ap rr with h | h <;> rw [h] <;>
      exact ⟨rfl, rfl⟩
  · intro flag o opts
    rw [show (getAIGeneratedPhrase flag o opts).2 = _ from rawFetchOp_trace o _ _]
    exact ⟨rfl, rfl⟩
  · intro flag o opts
    rw [show (getGeminiPhrase flag o opts).2 = _ from rawFetchOp_trace o _ _]
    exact ⟨rfl, rfl⟩

/-- Concrete network for the C10 counterexample: every request succeeds. -/
def okOracle : FetchOracle := fun _ => .response ⟨200, "OK", .obj [], ""⟩

/-- Claim C10 counterexample. The claim says the loading flag is set before
the first request of every operation, `testApiConnection` included; in
fact `testApiConnection` issues its four probe requests with the loading
flag unset (its trace contains no loading toggle at all). -/
theorem C10_counterexample :
    unguardedRequests false (testApiConnection false okOracle).2 = 4 ∧
    (requestUrls (testApiConnection false okOracle).2).length = 4 :=
  ⟨rfl, rfl⟩

/-! Claim C3 -/

/-- Concrete network for C3: the server accepts the POST and answers 201
with the created contribution as JSON body. -/
def c3Oracle : FetchOracle := fun _ =>
  .response ⟨201, "Created", .obj [("id", .num 1), ("kreyolText", .str "Bonjou")], ""⟩

/-- Claim C3 (code bug). The claim — and the source's own doc comment at
lines 331 and 389–397 — say a 2xx JSON response makes `submitContribution`
return the created Contribution, and a non-2xx response an `HttpError`
with the server-provided error text. In fact `fetchWithCorsHandling` has
already parsed the 2xx body, and the code at lines 389–397 then treats
that parsed JSON value as a `Response` object: `response.ok` is read on a
plain contribution object (falsy, since the body has no truthy `ok`
field) and `response.text()` is called on it, which is not a function —
so the success path throws a `TypeError` instead of returning the
contribution, and the error-text branch never runs on an actual non-2xx
response either. -/
theorem C3_submit_success_is_type_error :
    submitContribution false c3Oracle "Bonjou" (some ⟨4096, "audio/webm"⟩) "" "" "" =
      (.error ⟨.typeErr, "response.text is not a function"⟩,
       [.setLoading, .request (API_BASE_URL ++ "/contributions"),
        .clearLoading]) := rfl

/-! Claim C7 -/

/-- Claim C7 (confirmed). The file-extension inference is a pure function of
the declared media type: a type containing `"mpeg"` or `"mp3"` gives
`"mp3"`; a type containing `"webm"` but neither `"mpeg"` nor `"mp3"` gives
`"webm"`; any other type — the absent (empty) type included — gives
`"wav"`. -/
theorem C7_file_extension_pure (t : String) :
    ((strContains t "mpeg" || strContains t "mp3") = true →
      fileExtensionFor t = "mp3") ∧
    (strContains t "webm" = true → strContains t "mpeg" = false →
      strContains t "mp3" = false → fileExtensionFor t = "webm") ∧
    (strContains t "mpeg" = false → strContains t "mp3" = false →
      strContains t "webm" = false → fileExtensionFor t = "wav") := by
  refine ⟨?_, ?_, ?_⟩
  · intro h
    have ht : t ≠ "" := by
      rintro rfl
      revert h
      decide
    unfold fileExtensionFor
    simp [bne_iff_ne, ht, h]
  · intro hw hm1 hm2
    have ht : t ≠ "" := by
      rintro rfl
      revert hw
      decide
    unfold fileExtensionFor
    simp [bne_iff_ne, ht, hm1, hm2, hw]
  · intro h1 h2 h3
    unfold fileExtensionFor
    by_cases ht : t = ""
    · simp [ht]
    · simp [bne_iff_ne, ht, h1, h2, h3]

/-- Witness for C7: `"audio/webm"` contains `"webm"` and neither `"mpeg"`
nor `"mp3"`, so the inferred extension is `"webm"`. -/
theorem C7_file_extension_pure_witness :
    fileExtensionFor "audio/webm" = "webm" :=
  (C7_file_extension_pure "audio/webm").2.1 (by decide) (by decide) (by decide)

/-! Claim C8 -/

/-- The kind of the error a result carries, if any. -/
def errKindOf {α : Type} : Except JsError α → Option ErrKind
  | .error e => some e.kind
  | .ok _ => none

/-- Claim C8 (confirmed). Rejecting (`approved = false`) with a falsy
rejection reason — `null`, `undefined` or `""` — fails with the
`ValidationError` before any network request, for every id; approving
(`approved = true`) never produces that `ValidationError`, whatever the
reason and the network's answer. -/
theorem C8_reject_requires_reason (flag : Bool) (o : FetchOracle) (id : Int)
    (rr : Option String) :
    (truthyOpt rr = false →
      moderateContribution flag o id false rr =
        (.error ⟨.validation,
          "Rejection reason is required when rejecting a contribution"⟩,
         [.setLoading, .clearLoading])) ∧
    errKindOf (moderateContribution flag o id true rr).1 ≠ some .validation := by
  constructor
  · intro h
    unfold moderateContribution
    simp [h]
  · unfold moderateContribution
    cases h : o (getApiUrl flag ++ approvalPath id) with
    | reject m => simp [h, errKindOf]
    | response r =>
        by_cases hr : r.ok = true <;> simp [h, hr, errKindOf]

/-- Witness for C8: rejecting contribution 7 with a `null` reason fails
with the validation error and an empty request trace. -/
theorem C8_reject_requires_reason_witness :
    moderateContribution false okOracle 7 false none =
      (.error ⟨.validation,
        "Rejection reason is required when rejecting a contribution"⟩,
       [.setLoading, .clearLoading]) :=
  (C8_reject_requires_reason false okOracle 7 none).1 rfl

/-! Claim C4 -/

/-- Concrete network for the C4 counterexample: the statistics request is
rejected at transport level; everything else succeeds. -/
def c4Oracle : FetchOracle := fun url =>
  if url = API_BASE_URL ++ "/statistics" then .reject "Failed to fetch"
  else .response ⟨200, "OK", .obj [], ""⟩

/-- Claim C4 counterexample. The claim says a transport-level rejection of a
probe is captured into that probe's own report field and the remaining
probes still run; in fact a transport rejection of the statistics probe
reaches the outer catch: the whole diagnostic returns the error record and
only one request was ever issued — the later probes never ran. -/
theorem C4_counterexample :
    (testApiConnection false c4Oracle).1 = .errorReport "Failed to fetch" ∧
    requestUrls (testApiConnection false c4Oracle).2 =
      [API_BASE_URL ++ "/statistics"] :=
  ⟨rfl, rfl⟩

/-- Claim C4 (corrected). Whenever the statistics, contributions and
sentences fetches settle with responses — of any status, non-2xx included
— each probe's status and payload (or `"Failed"`) land in that probe's own
report field, all four probes run, and the AI-phrase probe additionally
captures even a transport-level rejection inline (status 500, `"Error:"`
payload). Only a transport-level rejection of one of the first three
probes aborts the remaining probes (the counterexample). -/
theorem C4_probe_isolation_amended (flag : Bool) (o : FetchOracle)
    (rs rc rn : Response)
    (h1 : o (getApiUrl flag ++ "/statistics") = .response rs)
    (h2 : o (getApiUrl flag ++ "/contributions?page=1&pageSize=5") = .response rc)
    (h3 : o (getApiUrl flag ++ "/sentences/random?count=3") = .response rn) :
    testApiConnection flag o =
      (.report
        { apiUrl := getApiUrl flag
          statistics := ⟨rs.status, probeData rs⟩
          contributions := ⟨rc.status, probeData rc⟩
          sentences := ⟨rn.status, probeData rn⟩
          gemini := geminiProbe
            (o (getApiUrl flag ++ "/ai/gemini-phrase?difficultyLevel=2")) },
       [.request (getApiUrl flag ++ "/statistics"),
        .request (getApiUrl flag ++ "/contributions?page=1&pageSize=5"),
        .request (getApiUrl flag ++ "/sentences/random?count=3"),
        .request (getApiUrl flag ++ "/ai/gemini-phrase?difficultyLevel=2")]) := by
  unfold testApiConnection
  simp [h1, h2, h3]

/-- Concrete network for the C4 witness: statistics answers 500, the
AI-phrase probe is rejected at transport level, the rest succeed. -/
def c4WitnessOracle : FetchOracle := fun url =>
  if url = API_BASE_URL ++ "/ai/gemini-phrase?difficultyLevel=2" then
    .reject "Failed to fetch"
  else if url = API_BASE_URL ++ "/statistics" then
    .response ⟨500, "Internal Server Error", .jsNull, "oops"⟩
  else .response ⟨200, "OK", .obj [], ""⟩

/-- Witness for C4: a 500 on statistics is reported as `"Failed"` in its
own field, the other probes still run, and the rejected AI-phrase probe is
reported inline as status 500 with an `"Error:"` payload. -/
theorem C4_probe_isolation_amended_witness :
    testApiConnection false c4WitnessOracle =
      (.report
        { apiUrl := API_BASE_URL
          statistics := ⟨500, .str "Failed"⟩
          contributions := ⟨200, .obj []⟩
          sentences := ⟨200, .obj []⟩
          gemini := ⟨500, .str "Error: Failed to fetch"⟩ },
       [.request (API_BASE_URL ++ "/statistics"),
        .request (API_BASE_URL ++ "/contributions?page=1&pageSize=5"),
        .request (API_BASE_URL ++ "/sentences/random?count=3"),
        .request (API_BASE_URL ++ "/ai/gemini-phrase?difficultyLevel=2")]) :=
  (C4_probe_isolation_amended false c4WitnessOracle
      ⟨500, "Internal Server Error", .jsNull, "oops"⟩
      ⟨200, "OK", .obj [], ""⟩ ⟨200, "OK", .obj [], ""⟩
      rfl rfl rfl).trans (by rfl)

/-! Claim C5 -/

/-- Claim C5 (confirmed). A falsy email yields the fixed not-eligible record
with no network call (and the shared trace is empty); a non-empty email
fetches up to 50 top contributors in one request, linearly searches them
for the email, and derives `laptopEligible` as count ≥ 10000,
`tshirtEligible` as count ≥ 1000 and `eligible` as `tshirtEligible`. -/
theorem C5_prize_eligibility (flag : Bool) (o : FetchOracle) (email : String)
    (r : Response) (l : List JsValue) (c : Int)
    (hne : email ≠ "")
    (hresp : o (getApiUrl flag ++ topContributorsPath 50) = .response r)
    (hok : r.ok = true)
    (hbody : r.body = .arr l)
    (htruthy : (jsFind l email).truthy = true)
    (hcount : countOf (jsFind l email) = c) :
    checkPrizeEligibility flag o email =
      (.ok (deriveEligibility c),
       [.setLoading, .request (getApiUrl flag ++ topContributorsPath 50),
        .clearLoading]) ∧
    (deriveEligibility c).laptopEligible = decide (c ≥ 10000) ∧
    (deriveEligibility c).tshirtEligible = decide (c ≥ 1000) ∧
    (deriveEligibility c).eligible = (deriveEligibility c).tshirtEligible ∧
    (deriveEligibility c).contributionCount = c ∧
    (∀ o2 : FetchOracle,
      checkPrizeEligibility flag o2 "" =
        (.ok { eligible := false
               message := "Email required for prize eligibility"
               contributionCount := 0
               laptopEligible := false
               tshirtEligible := false }, [])) := by
  have hg : getTopContributors flag o 50 =
      (.ok (.arr l),
       [.setLoading, .request (getApiUrl flag ++ topContributorsPath 50),
        .clearLoading]) := by
    unfold getTopContributors rawFetchOp
    rw [hresp]
    simp [hok, hbody]
  refine ⟨?_, rfl, rfl, rfl, rfl, ?_⟩
  · unfold checkPrizeEligibility
    rw [if_neg hne, hg]
    simp [htruthy, hcount]
  · intro o2
    rfl

/-- Concrete network for the C5 witness: one contributor with exactly 1000
contributions. -/
def c5Oracle : FetchOracle := fun _ =>
  .response ⟨200, "OK",
    .arr [.obj [("email", .str "a@b.c"), ("contributionCount", .num 1000)]], ""⟩

/-- Witness for C5: at exactly 1000 contributions the t-shirt threshold is
met, the laptop threshold is not, and `eligible` is true. -/
theorem C5_prize_eligibility_witness :
    checkPrizeEligibility false c5Oracle "a@b.c" =
      (.ok { eligible := true
             message := "You\x27ve qualified for a t-shirt and surprise gift!"
             contributionCount := 1000
             laptopEligible := false
             tshirtEligible := true },
       [.setLoading, .request (getApiUrl false ++ topContributorsPath 50),
        .clearLoading]) :=
  ((C5_prize_eligibility false c5Oracle "a@b.c"
      ⟨200, "OK",
        .arr [.obj [("email", .str "a@b.c"), ("contributionCount", .num 1000)]], ""⟩
      [.obj [("email", .str "a@b.c"), ("contributionCount", .num 1000)]] 1000
      (by decide) rfl rfl rfl rfl rfl).1).trans (by rfl)

/-! Claim C6 -/

/-- Claim C6 (confirmed). The client-side partition is exhaustive and
disjoint: every contribution satisfies exactly one of the three
moderation predicates; for each of the three filter names the predicate
keeps exactly the contributions whose bucket is that name; any other
filter string behaves as the `pending` default; and a fetched page is
returned filtered to the requested bucket. -/
theorem C6_moderation_partition :
    (∀ c : JsValue,
      (cond (moderationPredicate "approved" c) 1 0 : Nat) +
        cond (moderationPredicate "rejected" c) 1 0 +
        cond (moderationPredicate "pending" c) 1 0 = 1) ∧
    (∀ (c : JsValue) (f : String),
      f ∈ (["pending", "approved", "rejected"] : List String) →
      moderationPredicate f c = (bucketOf c == f)) ∧
    (∀ (f : String) (c : JsValue), f ≠ "approved" → f ≠ "rejected" →
      moderationPredicate f c = moderationPredicate "pending" c) ∧
    (∀ (flag : Bool) (o : FetchOracle) (page ps : Nat) (f : String)
       (r : Response) (l : List JsValue),
      o (getApiUrl flag ++ moderationListPath page ps) = .response r →
      r.ok = true → r.body = .arr l →
      getContributionsForModeration flag o page ps f =
        (.ok { items := l.filter (moderationPredicate f)
               page := page, pageSize := ps, filter := f },
         [.setLoading, .request (getApiUrl flag ++ moderationListPath page ps),
          .clearLoading])) := by
  refine ⟨?_, ?_, ?_, ?_⟩
  · intro c
    cases h1 : (c.getField "isApproved").truthy <;>
      cases h2 : (c.getField "rejectionReason").truthy <;>
        simp [moderationPredicate, h1, h2]
  · intro c f hf
    simp only [List.mem_cons, List.not_mem_nil, or_false] at hf
    rcases hf with rfl | rfl | rfl <;>
      cases h1 : (c.getField "isApproved").truthy <;>
        cases h2 : (c.getField "rejectionReason").truthy <;>
          simp [moderationPredicate, bucketOf, h1, h2]
  · intro f c hfa hfr
    simp [moderationPredicate, hfa, hfr]
  · intro flag o page ps f r l hresp hok hbody
    unfold getContributionsForModeration fetchWithCorsHandling
    simp [hresp, hok, hbody]

/-- Concrete network for the C6 witness: a page with one approved, one
rejected and one pending contribution. -/
def c6Oracle : FetchOracle := fun _ =>
  .response ⟨200, "OK",
    .arr [.obj [("id", .num 1), ("isApproved", .bool true)],
          .obj [("id", .num 2), ("isApproved", .bool false),
                ("rejectionReason", .str "noise")],
          .obj [("id", .num 3), ("isApproved", .bool false)]], ""⟩

/-- Witness for C6: filtering the three-element page with `"rejected"`
returns exactly the contribution that is unapproved with a rejection
reason. -/
theorem C6_moderation_partition_witness :
    getContributionsForModeration false c6Oracle 1 10 "rejected" =
      (.ok { items := [.obj [("id", .num 2), ("isApproved", .bool false),
                            ("rejectionReason", .str "noise")]]
             page := 1, pageSize := 10, filter := "rejected" },
       [.setLoading, .request (getApiUrl false ++ moderationListPath 1 10),
        .clearLoading]) :=
  (C6_moderation_partition.2.2.2 false c6Oracle 1 10 "rejected"
      ⟨200, "OK",
        .arr [.obj [("id", .num 1), ("isApproved", .bool true)],
              .obj [("id", .num 2), ("isApproved", .bool false),
                    ("rejectionReason", .str "noise")],
              .obj [("id", .num 3), ("isApproved", .bool false)]], ""⟩
      [.obj [("id", .num 1), ("isApproved", .bool true)],
       .obj [("id", .num 2), ("isApproved", .bool false),
             ("rejectionReason", .str "noise")],
       .obj [("id", .num 3), ("isApproved", .bool false)]]
      rfl rfl rfl).trans (by rfl)

/-! Claim C9 -/

/-- Writing back the value a key already holds leaves the association list
unchanged. -/
theorem setFieldList_lookup_self (fs : List (String × JsValue)) (k : String)
    (v : JsValue) (h : fs.lookup k = some v) : setFieldList fs k v = fs := by
  induction fs with
  | nil => simp [List.lookup] at h
  | cons p fs ih =>
      rcases p with ⟨k0, v0⟩
      by_cases hk : k = k0
      · subst hk
        simp [List.lookup] at h
        simp [setFieldList, h]
      · simp [List.lookup, beq_eq_false_iff_ne.mpr hk] at h
        simp [setFieldList, beq_eq_false_iff_ne.mpr (Ne.symm hk), ih h]

/-- Writing one key does not change what any other key reads. -/
theorem setFieldList_lookup_other (fs : List (String × JsValue)) (k k2 : String)
    (v : JsValue) (h : k2 ≠ k) :
    (setFieldList fs k v).lookup k2 = fs.lookup k2 := by
  induction fs with
  | nil => simp [setFieldList, List.lookup, beq_eq_false_iff_ne.mpr h]
  | cons p fs ih =>
      rcases p with ⟨k0, v0⟩
      by_cases hk : k0 = k
      · subst hk
        simp [setFieldList, List.lookup, beq_eq_false_iff_ne.mpr h]
      · simp [setFieldList, beq_eq_false_iff_ne.mpr hk, List.lookup, ih]

/-- Reassigning a field to the string it already holds is the identity on
the object. -/
theorem setField_self (c : JsValue) (k : String) (u : String)
    (h : c.getField k = .str u) : c.setField k (.str u) = c := by
  cases c <;> simp [JsValue.getField] at h
  case obj fs =>
    cases hl : fs.lookup k with
    | none =>
        rw [hl] at h
        simp at h
    | some w =>
        rw [hl] at h
        simp at h
        subst h
        exact congrArg JsValue.obj (setFieldList_lookup_self fs k _ hl)

/-- A field write is invisible to every other field read. -/
theorem getField_setField_other (c : JsValue) (k k2 : String) (v : JsValue)
    (h : k2 ≠ k) : (c.setField k v).getField k2 = c.getField k2 := by
  cases c <;> simp [JsValue.setField, JsValue.getField]
  case obj fs => rw [setFieldList_lookup_other fs k k2 v h]

/-- Claim C9 (confirmed). For each item of a fetched page: an audio URL
containing `"blob.core.windows.net"` is rewritten to the local relay path
built from the current base URL (`getApiUrl` + `/api/proxy-audio?url=` +
the percent-encoded original); an audio URL not containing that domain is
left unchanged (the reassignment writes back the same string); an absent
audio URL leaves the item untouched; and in every case no field other than
`audioUrl` changes. -/
theorem C9_audio_url_rewrite (flag : Bool) (c : JsValue) (u : String) :
    (c.getField "audioUrl" = .str u →
      strContains u "blob.core.windows.net" = true →
      processContribution flag c =
        .ok (c.setField "audioUrl"
          (.str (getApiUrl flag ++
            ("/api/proxy-audio?url=" ++ encodeURIComponent u))))) ∧
    (c.getField "audioUrl" = .str u →
      strContains u "blob.core.windows.net" = false →
      processContribution flag c = .ok c) ∧
    (c.getField "audioUrl" = .jsUndefined → processContribution flag c = .ok c) ∧
    (∀ (w : JsValue) (k : String), k ≠ "audioUrl" →
      (c.setField "audioUrl" w).getField k = c.getField k) := by
  refine ⟨?_, ?_, ?_, ?_⟩
  · intro hget hblob
    have hu : u ≠ "" := by
      rintro rfl
      revert hblob
      decide
    unfold processContribution
    rw [hget]
    simp [bne_iff_ne, hu, getProxiedUrl, hblob]
  · intro hget hnoblob
    unfold processContribution
    rw [hget]
    by_cases hu : u = ""
    · simp [hu]
    · simp only [bne_iff_ne, ne_eq, hu, not_false_eq_true, if_true, reduceIte]
      rw [show getProxiedUrl flag u = u by simp [getProxiedUrl, hnoblob]]
      rw [setField_self c "audioUrl" u hget]
  · intro hget
    unfold processContribution
    rw [hget]
    simp [JsValue.truthy]
  · intro w k hk
    exact getField_setField_other c "audioUrl" k w hk

/-- Witness for C9: a contribution whose audio URL points at Azure blob
storage is rewritten to the relay path and its other fields survive. -/
theorem C9_audio_url_rewrite_witness :
    processContribution false
      (.obj [("id", .num 5),
             ("audioUrl", .str "https://acct.blob.core.windows.net/a.wav")]) =
      .ok (.obj [("id", .num 5),
                 ("audioUrl", .str (getApiUrl false ++
                   ("/api/proxy-audio?url=" ++
                    encodeURIComponent "https://acct.blob.core.windows.net/a.wav")))]) :=
  ((C9_audio_url_rewrite false
      (.obj [("id", .num 5),
             ("audioUrl", .str "https://acct.blob.core.windows.net/a.wav")])
      "https://acct.blob.core.windows.net/a.wav").1 rfl (by decide)).trans
    (by rfl)

